import Mathlib

/-!
Shallow embedding of the session time and clinical-state simulation core of
the VP repository (src/sessions/sessions.service.ts).  Database rows for a
single session (the session record, its time events, medical actions and
conversations) are modelled as an explicit `SessionState` value; each service
method becomes a pure function from the state (plus the request parameters
and the wall-clock instant of the call, standing for `new Date()`) to either
a typed error (the thrown Nest exception) or the updated state and return
value.  Times are integers (milliseconds, as in `Date.getTime()`); numeric
quantities that the source computes with JavaScript numbers are rationals.
-/

namespace VP

/-- `SessionStatus` enum from sharedtypes. -/
inductive SessionStatus
  | ACTIVE
  | PAUSED
  | COMPLETED
deriving DecidableEq, Repr

/-- `TimeFlowMode` enum from sharedtypes. -/
inductive TimeFlowMode
  | REAL_TIME
  | ACCELERATED
  | PAUSED
deriving DecidableEq, Repr

/-- `ActionStatus` enum from sharedtypes. -/
inductive ActionStatus
  | IN_PROGRESS
  | COMPLETED
deriving DecidableEq, Repr

/-- Vital signs, with the fields the service reads or writes. -/
structure VitalSigns where
  heartRate : ℚ
  systolicBP : ℚ
  diastolicBP : ℚ
  respiratoryRate : ℚ
  oxygenSaturation : ℚ
  temperature : ℚ
  painLevel : ℚ
deriving DecidableEq, Repr

/-- A `Partial<VitalSigns>` patch: present fields overwrite, absent fields
keep the previous value (the `{...current, ...changes}` spread). -/
structure VitalChanges where
  heartRate : Option ℚ
  systolicBP : Option ℚ
  diastolicBP : Option ℚ
  respiratoryRate : Option ℚ
  oxygenSaturation : Option ℚ
  temperature : Option ℚ
  painLevel : Option ℚ
deriving DecidableEq, Repr

/-- The object spread `{ ...currentVitalSigns, ...changes }`. -/
def applyVitalChanges (vs : VitalSigns) (ch : VitalChanges) : VitalSigns :=
  { heartRate := ch.heartRate.getD vs.heartRate
    systolicBP := ch.systolicBP.getD vs.systolicBP
    diastolicBP := ch.diastolicBP.getD vs.diastolicBP
    respiratoryRate := ch.respiratoryRate.getD vs.respiratoryRate
    oxygenSaturation := ch.oxygenSaturation.getD vs.oxygenSaturation
    temperature := ch.temperature.getD vs.temperature
    painLevel := ch.painLevel.getD vs.painLevel }

/-- A lab-result entry appended by `processLabResult`. -/
structure LabResultEntry where
  test : String
  value : ℚ
  units : String
  normalRange : String
  isCritical : Bool
  timestamp : Int
deriving DecidableEq, Repr

/-- `currentPatientState` as produced by `createInitialPatientState` and
mutated by the event/action handlers. -/
structure PatientState where
  vitalSigns : VitalSigns
  symptoms : List String
  mentalStatus : String
  physicalFindings : List String
  labResults : List LabResultEntry
  treatmentResponse : List String
deriving DecidableEq, Repr

/-- The `eventData` payload fields that the consequence handlers read
(`processLabResult`, `processMedicationEffect`, `processPatientDeterioration`)
plus the `triggeredBy` tag written by `processTriggeredEvents`. -/
structure EventData where
  test : String
  value : ℚ
  units : String
  normalRange : String
  isCritical : Bool
  vitalSignChanges : Option VitalChanges
  complication : String
  triggeredBy : String
deriving DecidableEq, Repr

/-- A `TimeEvent` row. -/
structure TimeEvent where
  id : Nat
  eventType : String
  eventData : EventData
  virtualTimeScheduled : Int
  requiresAttention : Bool
  isComplication : Bool
  acknowledgedAt : Option Int
  virtualTimeTriggered : Option Int
  realTimeTriggered : Option Int
deriving DecidableEq, Repr

/-- The `actionDetails` fields read by the action handlers. -/
structure ActionDetails where
  procedure : String
  medication : String
  dosage : String
  test : String
deriving DecidableEq, Repr

/-- Result payloads built by the four action handlers. -/
inductive ActionOutcome
  | examination (findings : String) (abnormalities : List String) (notes : String)
  | medication (medication : String) (dosage : String) (administrationTime : Int)
      (expectedEffects : String)
  | procedure (name : String) (findings : String) (complications : List String)
      (duration : String)
  | diagnostic (test : String) (result : String) (interpretation : String)
      (recommendations : String)
deriving DecidableEq, Repr

/-- A `MedicalAction` row. -/
structure MedicalAction where
  id : Nat
  userId : String
  actionType : String
  priority : String
  status : ActionStatus
  canBeFastForwarded : Bool
  realTimeStarted : Int
  virtualTimeStarted : Int
  realTimeCompleted : Option Int
  virtualTimeCompleted : Option Int
  result : Option ActionOutcome
  success : Option Bool
  feedback : Option String
deriving DecidableEq, Repr

/-- One competency dimension of `competencyScores`. -/
structure CompetencyScore where
  score : ℚ
  feedback : String
  evidence : List String
deriving DecidableEq, Repr

/-- The five-dimension `competencyScores` object. -/
structure CompetencyScores where
  diagnostic : CompetencyScore
  procedural : CompetencyScore
  communication : CompetencyScore
  professionalism : CompetencyScore
  criticalThinking : CompetencyScore
deriving DecidableEq, Repr

/-- An `LLMConversation` row, with the fields written by `askPatientQuestion`. -/
structure Conversation where
  userMessage : String
  patientResponse : String
  emotionalContext : String
  virtualTimestamp : Int
  medicalAccuracy : ℚ
  appropriateness : ℚ
deriving DecidableEq, Repr

/-- A `ScenarioSession` row, with the fields the service reads or writes. -/
structure Session where
  status : SessionStatus
  studentId : String
  supervisorId : Option String
  startTime : Int
  endTime : Option Int
  currentVirtualTime : Int
  lastRealTimeUpdate : Int
  timeFlowMode : TimeFlowMode
  timeAccelerationRate : ℚ
  totalRealTimeElapsed : ℚ
  totalVirtualTimeElapsed : Int
  currentPatientState : PatientState
  currentEmotionalState : String
  latestVitalSigns : VitalSigns
  complicationsEncountered : List String
  competencyScores : CompetencyScores
  overallScore : Option ℚ
  timeEfficiencyScore : Option ℚ
  finalFeedback : Option String
deriving DecidableEq, Repr

/-- The per-session database slice a service call reads and writes. -/
structure SessionState where
  session : Session
  events : List TimeEvent
  actions : List MedicalAction
  conversations : List Conversation
deriving DecidableEq, Repr

/-- The typed failures thrown by the service (Nest exception classes). -/
inductive ServiceError
  | notFound (msg : String)
  | forbidden (msg : String)
  | badRequest (msg : String)
  | conflict (msg : String)
deriving DecidableEq, Repr

/-- `FastForwardDto`: `stopOnEvents` is optional in the source
(`fastForwardDto.stopOnEvents ?? true` at the query, but tested for
truthiness directly at the clipping decision). -/
structure FastForwardDto where
  virtualMinutes : Int
  stopOnEvents : Option Bool
deriving DecidableEq, Repr

/-- `PerformActionDto`. -/
structure PerformActionDto where
  actionType : String
  actionDetails : ActionDetails
  priority : String
deriving DecidableEq, Repr

/-- The LLM oracle response consumed by `askPatientQuestion`, passed in as an
explicit argument since the oracle is an external collaborator. -/
structure LLMResponse where
  processedResponse : String
  emotionalState : String
  vitalSignChanges : Option VitalChanges
  medicalAccuracy : ℚ
  educationalValue : ℚ
  triggeredEvents : List String
deriving DecidableEq, Repr

/-- `calculateRealTimeElapsed`: `(virtualMinutes / accelerationRate) * 60`. -/
def calculateRealTimeElapsed (accelerationRate : ℚ) (virtualMinutes : ℚ) : ℚ :=
  virtualMinutes / accelerationRate * 60

/-- The `where` filter of `getInterruptingEvents`: scheduled strictly after
`fromTime`, at or before `toTime`, `requiresAttention`, unacknowledged. -/
def interruptingPred (fromTime toTime : Int) (e : TimeEvent) : Bool :=
  decide (fromTime < e.virtualTimeScheduled ∧ e.virtualTimeScheduled ≤ toTime ∧
    e.requiresAttention = true ∧ e.acknowledgedAt = none)

/-- Insertion step of the `orderBy virtualTimeScheduled asc` ordering. -/
def insertByScheduled (e : TimeEvent) : List TimeEvent → List TimeEvent
  | [] => [e]
  | x :: xs =>
    if e.virtualTimeScheduled ≤ x.virtualTimeScheduled then e :: x :: xs
    else x :: insertByScheduled e xs

/-- `orderBy virtualTimeScheduled asc` on a result list. -/
def sortByScheduled : List TimeEvent → List TimeEvent
  | [] => []
  | x :: xs => insertByScheduled x (sortByScheduled xs)

/-- `getInterruptingEvents`: returns `[]` when `stopOnEvents` is false,
otherwise the unacknowledged attention-requiring events scheduled in
`(fromTime, toTime]`, ascending by scheduled time. -/
def getInterruptingEvents (events : List TimeEvent) (fromTime toTime : Int)
    (stopOnEvents : Bool) : List TimeEvent :=
  if stopOnEvents = false then []
  else sortByScheduled (events.filter (interruptingPred fromTime toTime))

/-- The `where` filter of `processTimeEvents`: scheduled in the closed
interval `[fromTime, toTime]` (the query uses `gte`/`lte`) and not yet
triggered. -/
def firePred (fromTime toTime : Int) (e : TimeEvent) : Bool :=
  decide (fromTime ≤ e.virtualTimeScheduled ∧ e.virtualTimeScheduled ≤ toTime ∧
    e.virtualTimeTriggered = none)

/-- The update that stamps an event as fired
(`virtualTimeTriggered`/`realTimeTriggered` set to the call instant). -/
def stampEvent (now : Int) (e : TimeEvent) : TimeEvent :=
  { e with virtualTimeTriggered := some now, realTimeTriggered := some now }

/-- `prisma.timeEvent.update` on the row with the given id. -/
def setEvent (events : List TimeEvent) (e' : TimeEvent) : List TimeEvent :=
  events.map fun x => if x.id = e'.id then e' else x

/-- `updateVitalSigns`: merges the patch into `latestVitalSigns` and mirrors
the merged vitals into `currentPatientState.vitalSigns`. -/
def updateVitalSigns (st : SessionState) (changes : VitalChanges) : SessionState :=
  let updatedVitalSigns := applyVitalChanges st.session.latestVitalSigns changes
  { st with
    session := { st.session with
      latestVitalSigns := updatedVitalSigns
      currentPatientState :=
        { st.session.currentPatientState with vitalSigns := updatedVitalSigns } } }

/-- `processLabResult`: appends a lab-result entry built from the event
payload to `currentPatientState.labResults`. -/
def processLabResult (now : Int) (st : SessionState) (e : TimeEvent) : SessionState :=
  let cs := st.session.currentPatientState
  let entry : LabResultEntry :=
    { test := e.eventData.test
      value := e.eventData.value
      units := e.eventData.units
      normalRange := e.eventData.normalRange
      isCritical := e.eventData.isCritical
      timestamp := now }
  { st with
    session := { st.session with
      currentPatientState := { cs with labResults := cs.labResults ++ [entry] } } }

/-- `processMedicationEffect`: applies the payload's vital-sign changes when
present. -/
def processMedicationEffect (st : SessionState) (e : TimeEvent) : SessionState :=
  match e.eventData.vitalSignChanges with
  | some changes => updateVitalSigns st changes
  | none => st

/-- `processPatientDeterioration`: appends the payload's complication to the
session log, then applies the payload's vital-sign changes when present. -/
def processPatientDeterioration (st : SessionState) (e : TimeEvent) : SessionState :=
  let st1 := { st with
    session := { st.session with
      complicationsEncountered :=
        st.session.complicationsEncountered ++ [e.eventData.complication] } }
  match e.eventData.vitalSignChanges with
  | some changes => updateVitalSigns st1 changes
  | none => st1

/-- `processEventConsequences`: dispatch on `eventType`; unknown types are a
no-op. -/
def processEventConsequences (now : Int) (st : SessionState) (e : TimeEvent) :
    SessionState :=
  if e.eventType = "lab_result_ready" then processLabResult now st e
  else if e.eventType = "medication_effect" then processMedicationEffect st e
  else if e.eventType = "patient_deterioration" then processPatientDeterioration st e
  else st

/-- One iteration of the `processTimeEvents` loop: stamp the event as
triggered, then run its consequences (the source passes the pre-update row
to `processEventConsequences`; only `eventType`/`eventData` are read). -/
def fireEvent (now : Int) (st : SessionState) (e : TimeEvent) :
    SessionState × TimeEvent :=
  let e' := stampEvent now e
  let st1 := { st with events := setEvent st.events e' }
  (processEventConsequences now st1 e, e')

/-- `processTimeEvents`: select the untriggered events scheduled in
`[fromTime, toTime]`, then fire each, accumulating the updated rows. -/
def processTimeEvents (now : Int) (st : SessionState) (fromTime toTime : Int) :
    SessionState × List TimeEvent :=
  let events := st.events.filter (firePred fromTime toTime)
  events.foldl (fun acc e =>
    let r := fireEvent now acc.1 e
    (r.1, acc.2 ++ [r.2])) (st, [])

/-- `simulateVitalSignChanges`: heart rate drifts up by 0.1 per elapsed
virtual minute, floored at 60. -/
def simulateVitalSignChanges (vs : VitalSigns) (minutesElapsed : Int) : VitalSigns :=
  { vs with heartRate := max 60 (vs.heartRate + (minutesElapsed : ℚ) * (1 / 10)) }

/-- `updatePatientStateFromTime`: recompute `latestVitalSigns` from the
elapsed minutes and mirror them into `currentPatientState.vitalSigns`. -/
def updatePatientStateFromTime (st : SessionState) (virtualMinutes : Int) :
    SessionState :=
  let updatedVitalSigns :=
    simulateVitalSignChanges st.session.latestVitalSigns virtualMinutes
  { st with
    session := { st.session with
      latestVitalSigns := updatedVitalSigns
      currentPatientState :=
        { st.session.currentPatientState with vitalSigns := updatedVitalSigns } } }

/-- The blocking-action count filter of `fastForwardTime`:
status `IN_PROGRESS` and `canBeFastForwarded = false`. -/
def blockingPred (a : MedicalAction) : Bool :=
  decide (a.status = ActionStatus.IN_PROGRESS ∧ a.canBeFastForwarded = false)

/-- `currentVirtualTime + virtualMinutes * 60000`. -/
def ffTarget (st : SessionState) (dto : FastForwardDto) : Int :=
  st.session.currentVirtualTime + dto.virtualMinutes * 60000

/-- The interrupting events computed by `fastForwardTime`
(`stopOnEvents ?? true` supplied to the query). -/
def ffInterrupting (st : SessionState) (dto : FastForwardDto) : List TimeEvent :=
  getInterruptingEvents st.events st.session.currentVirtualTime (ffTarget st dto)
    (dto.stopOnEvents.getD true)

/-- The clipping decision
`interruptingEvents.length > 0 && fastForwardDto.stopOnEvents`
(JavaScript truthiness: only an actual `true` passes). -/
def ffInterrupted (st : SessionState) (dto : FastForwardDto) : Bool :=
  !(ffInterrupting st dto).isEmpty && decide (dto.stopOnEvents = some true)

/-- The final virtual time: the first interrupting event's scheduled time
when clipping, otherwise the full target. -/
def ffFinalTime (st : SessionState) (dto : FastForwardDto) : Int :=
  if ffInterrupted st dto then
    match (ffInterrupting st dto).head? with
    | some e => e.virtualTimeScheduled
    | none => ffTarget st dto
  else ffTarget st dto

/-- The session-row update performed by `fastForwardTime`. -/
def ffUpdatedSession (st : SessionState) (dto : FastForwardDto) (now : Int) : Session :=
  { st.session with
    currentVirtualTime := ffFinalTime st dto
    lastRealTimeUpdate := now
    timeFlowMode :=
      if ffInterrupted st dto then TimeFlowMode.PAUSED else TimeFlowMode.ACCELERATED
    totalVirtualTimeElapsed :=
      st.session.totalVirtualTimeElapsed + dto.virtualMinutes
    totalRealTimeElapsed :=
      st.session.totalRealTimeElapsed +
        calculateRealTimeElapsed st.session.timeAccelerationRate (dto.virtualMinutes : ℚ) }

/-- The success path of `fastForwardTime`: update the session row, fire the
events in `[current, final]`, recompute the patient state from the full
requested `virtualMinutes` (as the source does), and return the triggered
events and the `interrupted` flag. -/
def ffSuccess (st : SessionState) (dto : FastForwardDto) (now : Int) :
    SessionState × List TimeEvent × Bool :=
  (updatePatientStateFromTime
      (processTimeEvents now { st with session := ffUpdatedSession st dto now }
        st.session.currentVirtualTime (ffFinalTime st dto)).1 dto.virtualMinutes,
    (processTimeEvents now { st with session := ffUpdatedSession st dto now }
      st.session.currentVirtualTime (ffFinalTime st dto)).2,
    ffInterrupted st dto)

/-- `fastForwardTime`: access check, ACTIVE check, blocking-action check,
then the success path. -/
def fastForwardTime (st : SessionState) (dto : FastForwardDto) (userId : String)
    (now : Int) : Except ServiceError (SessionState × List TimeEvent × Bool) :=
  if st.session.studentId ≠ userId ∧ st.session.supervisorId ≠ some userId then
    Except.error (ServiceError.forbidden "Access denied to this session")
  else if st.session.status ≠ SessionStatus.ACTIVE then
    Except.error (ServiceError.badRequest "Cannot fast-forward inactive session")
  else if 0 < (st.actions.filter blockingPred).length then
    Except.error (ServiceError.badRequest "Cannot fast-forward while actions are in progress")
  else
    Except.ok (ffSuccess st dto now)

/-- `canActionBeFastForwarded`: a fixed denylist of non-fast-forwardable
action types. -/
def canActionBeFastForwarded (actionType : String) : Bool :=
  ! (["complex_procedure", "surgery", "critical_care"].contains actionType)

/-- The `{success, result, feedback}` value returned by the action handlers. -/
structure ActionAttempt where
  success : Bool
  result : Option ActionOutcome
  feedback : Option String
deriving DecidableEq, Repr

/-- `processExaminationAction`. -/
def processExaminationAction (action : PerformActionDto) (patientState : PatientState) :
    ActionAttempt :=
  { success := true
    result := some (ActionOutcome.examination
      ("Normal " ++ action.actionDetails.procedure ++ " examination") []
      "Examination performed correctly")
    feedback := some "Examination completed successfully" }

/-- `processMedicationAction` (`administrationTime` is the call instant). -/
def processMedicationAction (now : Int) (action : PerformActionDto)
    (patientState : PatientState) : ActionAttempt :=
  { success := true
    result := some (ActionOutcome.medication action.actionDetails.medication
      action.actionDetails.dosage now "Pain relief in 15-30 minutes")
    feedback := some "Medication administered correctly" }

/-- `processProcedureAction`. -/
def processProcedureAction (action : PerformActionDto) (patientState : PatientState) :
    ActionAttempt :=
  { success := true
    result := some (ActionOutcome.procedure action.actionDetails.procedure
      "Procedure completed successfully" [] "15 minutes")
    feedback := some "Procedure performed correctly" }

/-- `processDiagnosticAction`. -/
def processDiagnosticAction (action : PerformActionDto) (patientState : PatientState) :
    ActionAttempt :=
  { success := true
    result := some (ActionOutcome.diagnostic action.actionDetails.test
      "Within normal limits" "No significant abnormalities detected"
      "Continue with current management")
    feedback := some "Diagnostic test ordered successfully" }

/-- `processMedicalAction`: dispatch on `actionType`; the default branch is
the deliberate soft failure. -/
def processMedicalAction (now : Int) (action : PerformActionDto)
    (patientState : PatientState) : ActionAttempt :=
  if action.actionType = "examination" then processExaminationAction action patientState
  else if action.actionType = "medication" then
    processMedicationAction now action patientState
  else if action.actionType = "procedure" then processProcedureAction action patientState
  else if action.actionType = "diagnostic" then
    processDiagnosticAction action patientState
  else { success := false, result := none, feedback := some "Unknown action type" }

/-- `updatePatientStateFromAction`: reads the current patient state, applies
no delta (`{...currentState}`), and persists it back. -/
def updatePatientStateFromAction (st : SessionState) (action : PerformActionDto)
    (actionResult : ActionAttempt) : SessionState × PatientState :=
  let updatedState := st.session.currentPatientState
  ({ st with session := { st.session with currentPatientState := updatedState } },
    updatedState)

/-- `performAction`: access check (no session-status check in the source),
create the action row `IN_PROGRESS`, process it, mark it `COMPLETED` with the
result, update the patient state, and return the action, success flag, result
and updated state.  `newId` stands for the database-generated row id. -/
def performAction (st : SessionState) (dto : PerformActionDto) (userId : String)
    (now : Int) (newId : Nat) :
    Except ServiceError (SessionState × MedicalAction × Bool × Option ActionOutcome × PatientState) :=
  if st.session.studentId ≠ userId ∧ st.session.supervisorId ≠ some userId then
    Except.error (ServiceError.forbidden "Access denied to this session")
  else
    let actionResult := processMedicalAction now dto st.session.currentPatientState
    let updatedAction : MedicalAction :=
      { id := newId
        userId := userId
        actionType := dto.actionType
        priority := dto.priority
        status := ActionStatus.COMPLETED
        canBeFastForwarded := canActionBeFastForwarded dto.actionType
        realTimeStarted := now
        virtualTimeStarted := st.session.currentVirtualTime
        realTimeCompleted := some now
        virtualTimeCompleted := some st.session.currentVirtualTime
        result := actionResult.result
        success := some actionResult.success
        feedback := actionResult.feedback }
    let st1 := { st with actions := st.actions ++ [updatedAction] }
    let r := updatePatientStateFromAction st1 dto actionResult
    Except.ok (r.1, updatedAction, actionResult.success, actionResult.result, r.2)

/-- `pauseSession`: student-only, requires ACTIVE. -/
def pauseSession (st : SessionState) (userId : String) :
    Except ServiceError SessionState :=
  if st.session.studentId ≠ userId then
    Except.error (ServiceError.forbidden "Only the student can pause their session")
  else if st.session.status ≠ SessionStatus.ACTIVE then
    Except.error (ServiceError.badRequest "Session is not active")
  else
    Except.ok { st with
      session := { st.session with
        status := SessionStatus.PAUSED
        timeFlowMode := TimeFlowMode.PAUSED } }

/-- `resumeSession`: student-only, requires PAUSED. -/
def resumeSession (st : SessionState) (userId : String) (now : Int) :
    Except ServiceError SessionState :=
  if st.session.studentId ≠ userId then
    Except.error (ServiceError.forbidden "Only the student can resume their session")
  else if st.session.status ≠ SessionStatus.PAUSED then
    Except.error (ServiceError.badRequest "Session is not paused")
  else
    Except.ok { st with
      session := { st.session with
        status := SessionStatus.ACTIVE
        timeFlowMode := TimeFlowMode.REAL_TIME
        lastRealTimeUpdate := now } }

/-- The mock assessment returned by `calculateFinalAssessment`. -/
structure FinalAssessment where
  competencyScores : CompetencyScores
  overallScore : ℚ
  timeEfficiencyScore : ℚ
  feedback : String
deriving DecidableEq, Repr

/-- `calculateFinalAssessment`: the source's fixed mock assessment. -/
def calculateFinalAssessment : FinalAssessment :=
  { competencyScores :=
      { diagnostic :=
          { score := 85 / 100, feedback := "Good diagnostic reasoning", evidence := [] }
        procedural :=
          { score := 78 / 100, feedback := "Adequate procedural skills", evidence := [] }
        communication :=
          { score := 92 / 100, feedback := "Excellent patient communication",
            evidence := [] }
        professionalism :=
          { score := 88 / 100, feedback := "Professional conduct maintained",
            evidence := [] }
        criticalThinking :=
          { score := 81 / 100, feedback := "Good problem-solving approach",
            evidence := [] } }
    overallScore := 85 / 100
    timeEfficiencyScore := 79 / 100
    feedback := "Good overall performance with room for improvement in procedural efficiency." }

/-- `completeSession`: student-only; the source performs no session-status
check before recomputing the assessment and overwriting the final fields. -/
def completeSession (st : SessionState) (userId : String) (now : Int) :
    Except ServiceError SessionState :=
  if st.session.studentId ≠ userId then
    Except.error (ServiceError.forbidden "Only the student can complete their session")
  else
    let assessment := calculateFinalAssessment
    Except.ok { st with
      session := { st.session with
        status := SessionStatus.COMPLETED
        timeFlowMode := TimeFlowMode.PAUSED
        endTime := some now
        competencyScores := assessment.competencyScores
        overallScore := some assessment.overallScore
        timeEfficiencyScore := some assessment.timeEfficiencyScore
        finalFeedback := some assessment.feedback } }

/-- `eventType.includes("complication")`. -/
def containsComplication (s : String) : Bool :=
  decide (1 < (s.splitOn "complication").length)

/-- One event row created by `processTriggeredEvents` (scheduled at the call
instant, requiring attention, untriggered); `newId` stands for the
database-generated row id. -/
def mkTriggeredEvent (newId : Nat) (now : Int) (eventType : String) : TimeEvent :=
  { id := newId
    eventType := eventType
    eventData :=
      { test := "", value := 0, units := "", normalRange := "", isCritical := false,
        vitalSignChanges := none, complication := "", triggeredBy := "conversation" }
    virtualTimeScheduled := now
    requiresAttention := true
    isComplication := containsComplication eventType
    acknowledgedAt := none
    virtualTimeTriggered := none
    realTimeTriggered := none }

/-- `processTriggeredEvents`: creates one attention-requiring event per
oracle-declared event type. -/
def processTriggeredEvents (st : SessionState) (eventTypes : List String)
    (now : Int) : SessionState :=
  eventTypes.foldl (fun acc ty =>
    { acc with events := acc.events ++ [mkTriggeredEvent acc.events.length now ty] }) st

/-- `askPatientQuestion`: access check (no session-status check in the
source), persist the conversation turn, update the emotional state when it
changed, apply the oracle's vital-sign changes, and materialize the oracle's
triggered events.  The oracle response is the explicit `llm` argument. -/
def askPatientQuestion (st : SessionState) (question : String) (userId : String)
    (llm : LLMResponse) (now : Int) :
    Except ServiceError (SessionState × String × String × Option VitalChanges × Nat) :=
  if st.session.studentId ≠ userId ∧ st.session.supervisorId ≠ some userId then
    Except.error (ServiceError.forbidden "Access denied to this session")
  else
    let conversation : Conversation :=
      { userMessage := question
        patientResponse := llm.processedResponse
        emotionalContext := llm.emotionalState
        virtualTimestamp := st.session.currentVirtualTime
        medicalAccuracy := llm.medicalAccuracy
        appropriateness := llm.educationalValue }
    let st1 := { st with conversations := st.conversations ++ [conversation] }
    let st2 :=
      if llm.emotionalState ≠ st.session.currentEmotionalState then
        { st1 with session := { st1.session with
            currentEmotionalState := llm.emotionalState } }
      else st1
    let st3 :=
      match llm.vitalSignChanges with
      | some changes => updateVitalSigns st2 changes
      | none => st2
    let st4 :=
      if 0 < llm.triggeredEvents.length then
        processTriggeredEvents st3 llm.triggeredEvents now
      else st3
    Except.ok (st4, llm.processedResponse, llm.emotionalState, llm.vitalSignChanges,
      st.conversations.length)

/-! ### Concrete fixtures used to instantiate the theorems -/

/-- A baseline set of vital signs. -/
def baseVitals : VitalSigns :=
  { heartRate := 80, systolicBP := 120, diastolicBP := 80, respiratoryRate := 16,
    oxygenSaturation := 98, temperature := 37, painLevel := 2 }

/-- The zeroed competency score created at session start. -/
def emptyScore : CompetencyScore := { score := 0, feedback := "", evidence := [] }

/-- The zeroed competency-score object created at session start. -/
def baseScores : CompetencyScores :=
  { diagnostic := emptyScore, procedural := emptyScore, communication := emptyScore,
    professionalism := emptyScore, criticalThinking := emptyScore }

/-- A baseline patient state. -/
def basePatient : PatientState :=
  { vitalSigns := baseVitals, symptoms := ["pain"], mentalStatus := "Alert and oriented",
    physicalFindings := [], labResults := [], treatmentResponse := [] }

/-- A baseline ACTIVE session owned by student "stu" with supervisor "sup",
virtual clock at 0 and acceleration rate 2. -/
def baseSession : Session :=
  { status := SessionStatus.ACTIVE, studentId := "stu", supervisorId := some "sup",
    startTime := 0, endTime := none, currentVirtualTime := 0, lastRealTimeUpdate := 0,
    timeFlowMode := TimeFlowMode.REAL_TIME, timeAccelerationRate := 2,
    totalRealTimeElapsed := 0, totalVirtualTimeElapsed := 0,
    currentPatientState := basePatient, currentEmotionalState := "calm",
    latestVitalSigns := baseVitals, complicationsEncountered := [],
    competencyScores := baseScores, overallScore := none, timeEfficiencyScore := none,
    finalFeedback := none }

/-- An empty event payload. -/
def emptyEventData : EventData :=
  { test := "", value := 0, units := "", normalRange := "", isCritical := false,
    vitalSignChanges := none, complication := "", triggeredBy := "" }

/-- An untriggered, unacknowledged event of type "note" at the given
scheduled time, with the given `requiresAttention` flag. -/
def eventAt (id : Nat) (sched : Int) (attn : Bool) : TimeEvent :=
  { id := id, eventType := "note", eventData := emptyEventData,
    virtualTimeScheduled := sched, requiresAttention := attn, isComplication := false,
    acknowledgedAt := none, virtualTimeTriggered := none, realTimeTriggered := none }

/-- Session state with one interrupting event scheduled exactly at the
fast-forward target (60 virtual minutes = 3600000 ms after the clock). -/
def stC1 : SessionState :=
  { session := baseSession, events := [eventAt 1 3600000 true], actions := [],
    conversations := [] }

/-- Fast-forward request for 60 virtual minutes, stopping on events. -/
def dtoC1 : FastForwardDto := { virtualMinutes := 60, stopOnEvents := some true }

/-- Session state with one interrupting event 20 virtual minutes in,
used to exercise a clipped (interrupted) fast-forward. -/
def stC1w : SessionState :=
  { session := baseSession, events := [eventAt 1 1200000 true], actions := [],
    conversations := [] }

/-- A PAUSED session with no actions yet. -/
def stPaused : SessionState :=
  { session := { baseSession with status := SessionStatus.PAUSED }, events := [],
    actions := [], conversations := [] }

/-- An examination action request. -/
def dtoExam : PerformActionDto :=
  { actionType := "examination"
    actionDetails := { procedure := "cardiac", medication := "", dosage := "", test := "" }
    priority := "routine" }

/-- An action request with an unknown action type. -/
def dtoBogus : PerformActionDto :=
  { actionType := "bogus"
    actionDetails := { procedure := "", medication := "", dosage := "", test := "" }
    priority := "routine" }

/-- An LLM oracle response with no side payloads. -/
def plainLLM : LLMResponse :=
  { processedResponse := "I feel dizzy", emotionalState := "calm",
    vitalSignChanges := none, medicalAccuracy := 9 / 10, educationalValue := 8 / 10,
    triggeredEvents := [] }

/-- A session already COMPLETED with a persisted first assessment
(`endTime = 1000`, overall score 1/2). -/
def stC3 : SessionState :=
  { session := { baseSession with
      status := SessionStatus.COMPLETED
      endTime := some 1000
      overallScore := some (1 / 2) }
    events := [], actions := [], conversations := [] }

/-- Session state with an untriggered event scheduled exactly at the current
virtual time. -/
def stC4 : SessionState :=
  { session := baseSession, events := [eventAt 1 0 false], actions := [],
    conversations := [] }

/-- Fast-forward request for 10 virtual minutes. -/
def dtoC4 : FastForwardDto := { virtualMinutes := 10, stopOnEvents := some true }

/-- An event already triggered (at instant 2) in the firing window. -/
def firedEventC5 : TimeEvent :=
  { eventAt 1 300000 false with
    virtualTimeTriggered := some 2
    realTimeTriggered := some 2 }

/-- Session state pairing the already-triggered event with an untriggered
one. -/
def stC5 : SessionState :=
  { session := baseSession
    events := [firedEventC5, eventAt 2 600000 false]
    actions := [], conversations := [] }

/-- Session state with one interrupting event 20 virtual minutes in,
used for the clipped physiology recomputation. -/
def stC6 : SessionState :=
  { session := baseSession, events := [eventAt 1 1200000 true], actions := [],
    conversations := [] }

/-- Fast-forward request of 60 virtual minutes, stopping on events. -/
def dtoC6 : FastForwardDto := { virtualMinutes := 60, stopOnEvents := some true }

/-- An IN_PROGRESS action that cannot be fast-forwarded. -/
def blockingAction : MedicalAction :=
  { id := 1, userId := "stu", actionType := "surgery", priority := "urgent",
    status := ActionStatus.IN_PROGRESS, canBeFastForwarded := false,
    realTimeStarted := 0, virtualTimeStarted := 0, realTimeCompleted := none,
    virtualTimeCompleted := none, result := none, success := none, feedback := none }

/-- Session state with a blocking in-progress action. -/
def stC7 : SessionState :=
  { session := baseSession, events := [], actions := [blockingAction],
    conversations := [] }

/-- Session state with one interrupting event 20 virtual minutes in, used for
the interrupted-totals witness. -/
def stC10 : SessionState :=
  { session := baseSession, events := [eventAt 1 1200000 true], actions := [],
    conversations := [] }

/-- Fast-forward request of 60 virtual minutes, stopping on events. -/
def dtoC10 : FastForwardDto := { virtualMinutes := 60, stopOnEvents := some true }

/-- The clock-and-status fields of a session, which the event-consequence and
physiology helpers never touch. -/
def sessionView (st : SessionState) : Int × TimeFlowMode × Int × ℚ × SessionStatus × Int :=
  (st.session.currentVirtualTime, st.session.timeFlowMode,
   st.session.totalVirtualTimeElapsed, st.session.totalRealTimeElapsed,
   st.session.status, st.session.lastRealTimeUpdate)

/-! ### Helper lemmas -/

lemma interruptingPred_iff {a b : Int} {e : TimeEvent} :
    interruptingPred a b e = true ↔
      a < e.virtualTimeScheduled ∧ e.virtualTimeScheduled ≤ b ∧
        e.requiresAttention = true ∧ e.acknowledgedAt = none := by
  simp [interruptingPred]

lemma firePred_iff {a b : Int} {e : TimeEvent} :
    firePred a b e = true ↔
      a ≤ e.virtualTimeScheduled ∧ e.virtualTimeScheduled ≤ b ∧
        e.virtualTimeTriggered = none := by
  simp [firePred]

lemma mem_insertByScheduled {a e : TimeEvent} {l : List TimeEvent} :
    a ∈ insertByScheduled e l ↔ a = e ∨ a ∈ l := by
  induction l with
  | nil => simp [insertByScheduled]
  | cons x xs ih =>
    simp only [insertByScheduled]
    split_ifs with h
    · simp [List.mem_cons]
    · simp only [List.mem_cons, ih]
      tauto

lemma mem_sortByScheduled {a : TimeEvent} {l : List TimeEvent} :
    a ∈ sortByScheduled l ↔ a ∈ l := by
  induction l with
  | nil => simp [sortByScheduled]
  | cons x xs ih => simp [sortByScheduled, mem_insertByScheduled, ih]

lemma pairwise_insertByScheduled {e : TimeEvent} {l : List TimeEvent}
    (h : l.Pairwise fun a b => a.virtualTimeScheduled ≤ b.virtualTimeScheduled) :
    (insertByScheduled e l).Pairwise
      fun a b => a.virtualTimeScheduled ≤ b.virtualTimeScheduled := by
  induction l with
  | nil => simp [insertByScheduled]
  | cons x xs ih =>
    rcases List.pairwise_cons.mp h with ⟨hx, hxs⟩
    simp only [insertByScheduled]
    split_ifs with hle
    · refine List.pairwise_cons.mpr ⟨?_, h⟩
      intro b hb
      rcases List.mem_cons.mp hb with rfl | hb
      · exact hle
      · exact le_trans hle (hx b hb)
    · refine List.pairwise_cons.mpr ⟨?_, ih hxs⟩
      intro b hb
      rcases mem_insertByScheduled.mp hb with rfl | hb
      · exact le_of_not_le hle
      · exact hx b hb

lemma pairwise_sortByScheduled (l : List TimeEvent) :
    (sortByScheduled l).Pairwise
      fun a b => a.virtualTimeScheduled ≤ b.virtualTimeScheduled := by
  induction l with
  | nil => simp [sortByScheduled]
  | cons x xs ih => exact pairwise_insertByScheduled ih

lemma sortByScheduled_head_mem {l : List TimeEvent} {e : TimeEvent}
    {rest : List TimeEvent} (h : sortByScheduled l = e :: rest) : e ∈ l := by
  have he : e ∈ sortByScheduled l := by
    rw [h]
    exact List.mem_cons_self e rest
  exact mem_sortByScheduled.mp he

lemma sortByScheduled_head_min {l : List TimeEvent} {e : TimeEvent}
    {rest : List TimeEvent} (h : sortByScheduled l = e :: rest) :
    ∀ a ∈ l, e.virtualTimeScheduled ≤ a.virtualTimeScheduled := by
  intro a ha
  have hmem : a ∈ sortByScheduled l := mem_sortByScheduled.mpr ha
  rw [h] at hmem
  rcases List.mem_cons.mp hmem with rfl | hmem
  · exact le_refl _
  · have hp := pairwise_sortByScheduled l
    rw [h] at hp
    exact (List.pairwise_cons.mp hp).1 a hmem

lemma mem_getInterruptingEvents {evs : List TimeEvent} {a b : Int} {x : TimeEvent} :
    x ∈ getInterruptingEvents evs a b true ↔
      x ∈ evs ∧ interruptingPred a b x = true := by
  simp [getInterruptingEvents, mem_sortByScheduled, List.mem_filter]

lemma getInterruptingEvents_head_min {evs : List TimeEvent} {a b : Int}
    {e : TimeEvent} {rest : List TimeEvent}
    (h : getInterruptingEvents evs a b true = e :: rest) :
    e ∈ evs ∧ interruptingPred a b e = true ∧
      ∀ y ∈ evs, interruptingPred a b y = true →
        e.virtualTimeScheduled ≤ y.virtualTimeScheduled := by
  have hsort : sortByScheduled (evs.filter (interruptingPred a b)) = e :: rest := by
    simpa [getInterruptingEvents] using h
  have hmem := List.mem_filter.mp (sortByScheduled_head_mem hsort)
  refine ⟨hmem.1, hmem.2, ?_⟩
  intro y hy hpy
  exact sortByScheduled_head_min hsort y (List.mem_filter.mpr ⟨hy, hpy⟩)

lemma sessionView_updateVitalSigns (st : SessionState) (ch : VitalChanges) :
    sessionView (updateVitalSigns st ch) = sessionView st := rfl

lemma sessionView_consequences (now : Int) (st : SessionState) (e : TimeEvent) :
    sessionView (processEventConsequences now st e) = sessionView st := by
  unfold processEventConsequences processLabResult processMedicationEffect
    processPatientDeterioration
  split_ifs <;> first
    | rfl
    | (cases e.eventData.vitalSignChanges <;> rfl)

lemma sessionView_fireEvent (now : Int) (st : SessionState) (e : TimeEvent) :
    sessionView (fireEvent now st e).1 = sessionView st := by
  unfold fireEvent
  exact sessionView_consequences now _ e

lemma sessionView_ptev_fold (now : Int) (l : List TimeEvent) (st : SessionState)
    (acc : List TimeEvent) :
    sessionView ((l.foldl (fun acc e =>
      let r := fireEvent now acc.1 e
      (r.1, acc.2 ++ [r.2])) (st, acc)).1) = sessionView st := by
  induction l generalizing st acc with
  | nil => rfl
  | cons x xs ih =>
    simp only [List.foldl_cons]
    exact (ih _ _).trans (sessionView_fireEvent now st x)

lemma sessionView_processTimeEvents (now : Int) (st : SessionState) (a b : Int) :
    sessionView (processTimeEvents now st a b).1 = sessionView st := by
  unfold processTimeEvents
  exact sessionView_ptev_fold now _ st []

lemma sessionView_updateFromTime (st : SessionState) (m : Int) :
    sessionView (updatePatientStateFromTime st m) = sessionView st := rfl

lemma events_consequences (now : Int) (st : SessionState) (e : TimeEvent) :
    (processEventConsequences now st e).events = st.events := by
  unfold processEventConsequences processLabResult processMedicationEffect
    processPatientDeterioration updateVitalSigns
  split_ifs <;> first
    | rfl
    | (cases e.eventData.vitalSignChanges <;> rfl)

lemma events_fireEvent (now : Int) (st : SessionState) (e : TimeEvent) :
    (fireEvent now st e).1.events = setEvent st.events (stampEvent now e) := by
  unfold fireEvent
  exact events_consequences now _ e

lemma ptev_fold_snd (now : Int) (l : List TimeEvent) (st : SessionState)
    (acc : List TimeEvent) :
    (l.foldl (fun acc e =>
      let r := fireEvent now acc.1 e
      (r.1, acc.2 ++ [r.2])) (st, acc)).2 = acc ++ l.map (stampEvent now) := by
  induction l generalizing st acc with
  | nil => simp
  | cons x xs ih =>
    simp only [List.foldl_cons, List.map_cons]
    rw [ih]
    simp [fireEvent]

lemma processTimeEvents_snd (now : Int) (st : SessionState) (a b : Int) :
    (processTimeEvents now st a b).2 =
      (st.events.filter (firePred a b)).map (stampEvent now) := by
  unfold processTimeEvents
  rw [ptev_fold_snd]
  simp

lemma mem_setEvent_of_ne {evs : List TimeEvent} {x e' : TimeEvent}
    (hx : x ∈ evs) (hne : x.id ≠ e'.id) : x ∈ setEvent evs e' := by
  unfold setEvent
  exact List.mem_map.mpr ⟨x, hx, if_neg hne⟩

lemma ptev_fold_mem (now : Int) (l : List TimeEvent) (st : SessionState)
    (acc : List TimeEvent) (e : TimeEvent) (he : e ∈ st.events)
    (hne : ∀ y ∈ l, y.id ≠ e.id) :
    e ∈ (l.foldl (fun acc x =>
      let r := fireEvent now acc.1 x
      (r.1, acc.2 ++ [r.2])) (st, acc)).1.events := by
  induction l generalizing st acc with
  | nil => simpa using he
  | cons x xs ih =>
    simp only [List.foldl_cons]
    apply ih
    · rw [events_fireEvent]
      refine mem_setEvent_of_ne he ?_
      intro h
      exact hne x (List.mem_cons_self x xs) (by simpa [stampEvent] using h.symm)
    · intro y hy
      exact hne y (List.mem_cons_of_mem x hy)

lemma processTimeEvents_preserves_triggered (now : Int) (st : SessionState)
    (a b : Int) (hids : (st.events.map (fun e => e.id)).Nodup) (e : TimeEvent)
    (he : e ∈ st.events) (ht : e.virtualTimeTriggered ≠ none) :
    e ∈ (processTimeEvents now st a b).1.events := by
  unfold processTimeEvents
  apply ptev_fold_mem now _ st [] e he
  intro y hy
  have hy' := List.mem_filter.mp hy
  have hyt : y.virtualTimeTriggered = none := (firePred_iff.mp hy'.2).2.2
  intro hid
  have hne : y ≠ e := fun h => ht (h ▸ hyt)
  exact hne (List.inj_on_of_nodup_map hids hy'.1 he hid)

lemma fastForwardTime_ok {st : SessionState} {dto : FastForwardDto}
    {userId : String} {now : Int} {out : SessionState × List TimeEvent × Bool}
    (h : fastForwardTime st dto userId now = Except.ok out) :
    out = ffSuccess st dto now := by
  unfold fastForwardTime at h
  split_ifs at h
  all_goals first
    | exact Except.noConfusion h
    | exact (Except.ok.inj h).symm

lemma ffSuccess_view (st : SessionState) (dto : FastForwardDto) (now : Int) :
    sessionView (ffSuccess st dto now).1 =
      (ffFinalTime st dto,
       (if ffInterrupted st dto then TimeFlowMode.PAUSED else TimeFlowMode.ACCELERATED),
       st.session.totalVirtualTimeElapsed + dto.virtualMinutes,
       st.session.totalRealTimeElapsed +
         calculateRealTimeElapsed st.session.timeAccelerationRate
           (dto.virtualMinutes : ℚ),
       st.session.status, now) := by
  show sessionView (updatePatientStateFromTime
    (processTimeEvents now { st with session := ffUpdatedSession st dto now }
      st.session.currentVirtualTime (ffFinalTime st dto)).1 dto.virtualMinutes) = _
  rw [sessionView_updateFromTime, sessionView_processTimeEvents]
  rfl

lemma ffInterrupting_stop_true (st : SessionState) (dto : FastForwardDto)
    (hstop : dto.stopOnEvents = some true) :
    ffInterrupting st dto =
      getInterruptingEvents st.events st.session.currentVirtualTime
        (ffTarget st dto) true := by
  unfold ffInterrupting
  rw [hstop]
  rfl

lemma ffInterrupted_iff (st : SessionState) (dto : FastForwardDto) :
    ffInterrupted st dto = true ↔
      ffInterrupting st dto ≠ [] ∧ dto.stopOnEvents = some true := by
  unfold ffInterrupted
  simp [List.isEmpty_iff]

lemma ffInterrupting_ne_nil_iff (st : SessionState) (dto : FastForwardDto)
    (hstop : dto.stopOnEvents = some true) :
    ffInterrupting st dto ≠ [] ↔
      ∃ e ∈ st.events,
        interruptingPred st.session.currentVirtualTime (ffTarget st dto) e = true := by
  rw [ffInterrupting_stop_true st dto hstop]
  constructor
  · intro hne
    rcases List.exists_mem_of_ne_nil _ hne with ⟨e, he⟩
    rcases mem_getInterruptingEvents.mp he with ⟨h1, h2⟩
    exact ⟨e, h1, h2⟩
  · rintro ⟨e, he, hp⟩
    exact List.ne_nil_of_mem (mem_getInterruptingEvents.mpr ⟨he, hp⟩)

lemma ffFinalTime_of_interrupting (st : SessionState) (dto : FastForwardDto)
    {e0 : TimeEvent} {rest : List TimeEvent}
    (hl : ffInterrupting st dto = e0 :: rest)
    (hstop : dto.stopOnEvents = some true) :
    ffFinalTime st dto = e0.virtualTimeScheduled ∧ ffInterrupted st dto = true := by
  have hi : ffInterrupted st dto = true := by
    unfold ffInterrupted
    rw [hl, hstop]
    simp
  refine ⟨?_, hi⟩
  unfold ffFinalTime
  simp [hi, hl]

lemma ffFinalTime_of_not_interrupted (st : SessionState) (dto : FastForwardDto)
    (hni : ffInterrupted st dto = false) : ffFinalTime st dto = ffTarget st dto := by
  unfold ffFinalTime
  simp [hni]

/-! ### Claim theorems -/

/-- C9: `calculateRealTimeElapsed(accelerationRate, virtualMinutes)` is
linear in `virtualMinutes`: for every fixed positive acceleration rate,
doubling `virtualMinutes` doubles the result, and at rate 1 the result in
real seconds equals `virtualMinutes * 60`. -/
theorem calculateRealTimeElapsed_linear (rate vm : ℚ) (h : 0 < rate) :
    calculateRealTimeElapsed rate (2 * vm) = 2 * calculateRealTimeElapsed rate vm ∧
    calculateRealTimeElapsed 1 vm = vm * 60 := by
  unfold calculateRealTimeElapsed
  constructor
  · ring
  · ring

/-- Witness for C9 at rate 2 and 5 virtual minutes. -/
theorem calculateRealTimeElapsed_linear_witness :
    (0 : ℚ) < 2 ∧
      (calculateRealTimeElapsed 2 (2 * 5) = 2 * calculateRealTimeElapsed 2 5 ∧
        calculateRealTimeElapsed 1 5 = 5 * 60) :=
  ⟨by norm_num, calculateRealTimeElapsed_linear 2 5 (by norm_num)⟩

/-- C8 counterexample: the soft-failure feedback string produced by
`processMedicalAction` for an unknown action type is the capitalized
"Unknown action type", not the exact string "unknown action type" the claim
demands. -/
theorem unknown_action_feedback_capitalized :
    (processMedicalAction 0 dtoBogus basePatient).feedback =
      some "Unknown action type" ∧
    some "Unknown action type" ≠ some "unknown action type" := by
  constructor
  · rfl
  · decide

/-- C8 (amended): for any action type outside
{examination, medication, procedure, diagnostic}, `processMedicalAction`
soft-fails with `success = false`, no result, and feedback
"Unknown action type" (capitalized as in the source), and `performAction`
for an authorized caller still returns normally (no thrown error) with
`success = false`, so the session is not aborted. -/
theorem unknown_action_soft_failure (now : Int) (dto : PerformActionDto)
    (ps : PatientState)
    (h1 : dto.actionType ≠ "examination") (h2 : dto.actionType ≠ "medication")
    (h3 : dto.actionType ≠ "procedure") (h4 : dto.actionType ≠ "diagnostic") :
    processMedicalAction now dto ps =
      { success := false, result := none, feedback := some "Unknown action type" } ∧
    ∀ (st : SessionState) (userId : String) (newId : Nat),
      (st.session.studentId = userId ∨ st.session.supervisorId = some userId) →
      (performAction st dto userId now newId).map (fun out => out.2.2.1) =
        Except.ok false := by
  have key : ∀ q : PatientState, processMedicalAction now dto q =
      { success := false, result := none, feedback := some "Unknown action type" } := by
    intro q
    unfold processMedicalAction
    rw [if_neg h1, if_neg h2, if_neg h3, if_neg h4]
  refine ⟨key ps, ?_⟩
  intro st userId newId hacc
  have hcond : ¬(st.session.studentId ≠ userId ∧
      st.session.supervisorId ≠ some userId) := by
    rcases hacc with h | h
    · exact fun hc => hc.1 h
    · exact fun hc => hc.2 h
  unfold performAction
  rw [if_neg hcond]
  simp [Except.map, key]

/-- Witness for C8 at the concrete "bogus" action request. -/
theorem unknown_action_soft_failure_witness :
    processMedicalAction 3 dtoBogus basePatient =
      { success := false, result := none, feedback := some "Unknown action type" } ∧
    (performAction stPaused dtoBogus "stu" 3 1).map (fun out => out.2.2.1) =
      Except.ok false := by
  have h := unknown_action_soft_failure 3 dtoBogus basePatient (by decide) (by decide)
    (by decide) (by decide)
  exact ⟨h.1, h.2 stPaused "stu" 1 (Or.inl rfl)⟩

/-- C7: with an IN_PROGRESS action that cannot be fast-forwarded present, a
fast-forward by an authorized caller on an ACTIVE session is rejected with
the blocking error; the function returns only the error, so no session
update is produced (all clocks stay as loaded) and no events are fired. -/
theorem fastForward_blocked_by_action (st : SessionState) (dto : FastForwardDto)
    (userId : String) (now : Int) (a : MedicalAction) (ha : a ∈ st.actions)
    (h1 : a.status = ActionStatus.IN_PROGRESS) (h2 : a.canBeFastForwarded = false)
    (hacc : st.session.studentId = userId ∨ st.session.supervisorId = some userId)
    (hact : st.session.status = SessionStatus.ACTIVE) :
    fastForwardTime st dto userId now =
      Except.error
        (ServiceError.badRequest "Cannot fast-forward while actions are in progress") := by
  have hcond : ¬(st.session.studentId ≠ userId ∧
      st.session.supervisorId ≠ some userId) := by
    rcases hacc with h | h
    · exact fun hc => hc.1 h
    · exact fun hc => hc.2 h
  have hcond2 : ¬(st.session.status ≠ SessionStatus.ACTIVE) := by simp [hact]
  have hmem : a ∈ st.actions.filter blockingPred :=
    List.mem_filter.mpr ⟨ha, by simp [blockingPred, h1, h2]⟩
  have hblock : 0 < (st.actions.filter blockingPred).length :=
    List.length_pos.mpr (List.ne_nil_of_mem hmem)
  unfold fastForwardTime
  rw [if_neg hcond, if_neg hcond2, if_pos hblock]

/-- Witness for C7 at the concrete blocked session. -/
theorem fastForward_blocked_by_action_witness :
    fastForwardTime stC7 { virtualMinutes := 15, stopOnEvents := some true } "stu" 4 =
      Except.error
        (ServiceError.badRequest "Cannot fast-forward while actions are in progress") :=
  fastForward_blocked_by_action stC7
    { virtualMinutes := 15, stopOnEvents := some true } "stu" 4 blockingAction
    (by decide) (by decide) (by decide) (Or.inl rfl) rfl

/-- C3 records a code bug: `completeSession` performs no ACTIVE-status check,
so a second call on the already-COMPLETED session `stC3` succeeds instead of
returning an InvalidState error, recomputes the assessment, and overwrites
the persisted `endTime` (1000 to 2000) and overall score (1/2 to 0.85). -/
theorem completeSession_overwrites_completed :
    stC3.session.status = SessionStatus.COMPLETED ∧
    stC3.session.endTime = some 1000 ∧
    stC3.session.finalFeedback = none ∧
    (completeSession stC3 "stu" 2000).toOption.map
      (fun st2 => (st2.session.endTime, st2.session.overallScore,
        st2.session.finalFeedback)) =
      some (some 2000, some (85 / 100),
        some "Good overall performance with room for improvement in procedural efficiency.") := by
  exact ⟨rfl, rfl, rfl, rfl⟩

/-- C6 records a code bug: in `stC6` the fast-forward of 60 requested minutes
is clipped by the interrupting event 20 minutes in (the virtual clock
advances only 1200000 ms), yet `updatePatientStateFromTime` is invoked with
the full requested 60 minutes, so the heart rate becomes 80 + 60*0.1 = 86
rather than the 80 + 20*0.1 = 82 that the clipped elapsed minutes give. -/
theorem physiology_recomputed_over_requested_minutes :
    (fastForwardTime stC6 dtoC6 "stu" 9).toOption.map
      (fun out => (out.1.session.currentVirtualTime, out.2.2)) =
      some (1200000, true) ∧
    (fastForwardTime stC6 dtoC6 "stu" 9).toOption.map
      (fun out => out.1.session.latestVitalSigns.heartRate) = some 86 ∧
    stC6.session.currentVirtualTime = 0 ∧
    dtoC6.virtualMinutes = 60 ∧
    (simulateVitalSignChanges stC6.session.latestVitalSigns 20).heartRate = 82 := by
  refine ⟨rfl, ?_, rfl, rfl, ?_⟩
  · show some (max 60 (baseVitals.heartRate + ((60 : Int) : ℚ) * (1 / 10))) = some 86
    norm_num [baseVitals]
  · show max 60 (baseVitals.heartRate + ((20 : Int) : ℚ) * (1 / 10)) = 82
    norm_num [baseVitals]

/-- C2 counterexample: `performAction` on the PAUSED session `stPaused`
succeeds (no error) and appends an action record with `success = true`,
instead of failing and leaving the session's state unchanged. -/
theorem paused_performAction_succeeds :
    stPaused.session.status = SessionStatus.PAUSED ∧
    (performAction stPaused dtoExam "stu" 4 1).toOption.map
      (fun out => (out.1.actions.length, out.2.2.1)) = some (1, true) := by
  exact ⟨rfl, rfl⟩

/-- C2 (amended): for a non-ACTIVE session and an authorized caller,
`fastForwardTime` is rejected with the inactive-session error and
`pauseSession` (for the student) with the not-active error, but
`performAction`, `askPatientQuestion` and `completeSession` perform no
session-status check in the source: they succeed, `performAction` appending
an action row and `completeSession` overwriting `endTime`. -/
theorem status_guard_only_some_operations (st : SessionState) (userId : String)
    (now : Int)
    (hacc : st.session.studentId = userId ∨ st.session.supervisorId = some userId)
    (hst : st.session.status ≠ SessionStatus.ACTIVE) :
    (∀ dto : FastForwardDto, fastForwardTime st dto userId now =
      Except.error (ServiceError.badRequest "Cannot fast-forward inactive session")) ∧
    (st.session.studentId = userId → pauseSession st userId =
      Except.error (ServiceError.badRequest "Session is not active")) ∧
    (∀ (dto : PerformActionDto) (newId : Nat),
      (performAction st dto userId now newId).map (fun out => out.1.actions.length) =
        Except.ok (st.actions.length + 1)) ∧
    (∀ (question : String) (llm : LLMResponse),
      ∃ out, askPatientQuestion st question userId llm now = Except.ok out) ∧
    (st.session.studentId = userId →
      (completeSession st userId now).map (fun st2 => st2.session.endTime) =
        Except.ok (some now)) := by
  have hcond : ¬(st.session.studentId ≠ userId ∧
      st.session.supervisorId ≠ some userId) := by
    rcases hacc with h | h
    · exact fun hc => hc.1 h
    · exact fun hc => hc.2 h
  refine ⟨?_, ?_, ?_, ?_, ?_⟩
  · intro dto
    unfold fastForwardTime
    rw [if_neg hcond, if_pos hst]
  · intro hself
    unfold pauseSession
    rw [if_neg (by simp [hself]), if_pos hst]
  · intro dto newId
    unfold performAction
    rw [if_neg hcond]
    simp [Except.map, updatePatientStateFromAction]
  · intro question llm
    unfold askPatientQuestion
    rw [if_neg hcond]
    exact ⟨_, rfl⟩
  · intro hself
    unfold completeSession
    rw [if_neg (by simp [hself])]
    rfl

/-- Witness for C2 at the concrete PAUSED session. -/
theorem status_guard_only_some_operations_witness :
    fastForwardTime stPaused { virtualMinutes := 5, stopOnEvents := none } "stu" 6 =
      Except.error (ServiceError.badRequest "Cannot fast-forward inactive session") ∧
    pauseSession stPaused "stu" =
      Except.error (ServiceError.badRequest "Session is not active") ∧
    (performAction stPaused dtoExam "stu" 6 1).map (fun out => out.1.actions.length) =
      Except.ok (stPaused.actions.length + 1) ∧
    (∃ out, askPatientQuestion stPaused "how do you feel" "stu" plainLLM 6 =
      Except.ok out) ∧
    (completeSession stPaused "stu" 6).map (fun st2 => st2.session.endTime) =
      Except.ok (some 6) := by
  have h := status_guard_only_some_operations stPaused "stu" 6 (Or.inl rfl) (by decide)
  exact ⟨h.1 _, h.2.1 rfl, h.2.2.1 dtoExam 1, h.2.2.2.1 "how do you feel" plainLLM,
    h.2.2.2.2 rfl⟩

/-- C10: when a successful fast-forward is interrupted and advances the
virtual clock by strictly less than requested, the elapsed-time totals are
nevertheless incremented by the full request: `totalVirtualTimeElapsed` by
`virtualMinutes` and `totalRealTimeElapsed` by the real-time equivalent of
the full request, so the totals exceed the actual clock advance. -/
theorem interrupted_totals_use_full_request (st : SessionState)
    (dto : FastForwardDto) (userId : String) (now : Int)
    (out : SessionState × List TimeEvent × Bool)
    (h : fastForwardTime st dto userId now = Except.ok out)
    (hintr : out.2.2 = true)
    (hless : out.1.session.currentVirtualTime <
      st.session.currentVirtualTime + dto.virtualMinutes * 60000) :
    out.1.session.totalVirtualTimeElapsed =
      st.session.totalVirtualTimeElapsed + dto.virtualMinutes ∧
    out.1.session.totalRealTimeElapsed =
      st.session.totalRealTimeElapsed +
        calculateRealTimeElapsed st.session.timeAccelerationRate
          (dto.virtualMinutes : ℚ) ∧
    out.1.session.currentVirtualTime - st.session.currentVirtualTime <
      dto.virtualMinutes * 60000 := by
  have hout := fastForwardTime_ok h
  subst hout
  have hv := ffSuccess_view st dto now
  unfold sessionView at hv
  simp only [Prod.mk.injEq] at hv
  obtain ⟨hcv, hfm, htv, htr, hstat, hlast⟩ := hv
  exact ⟨htv, htr, by omega⟩

/-- Witness for C10 at the concrete interrupted fast-forward. -/
theorem interrupted_totals_use_full_request_witness :
    ∃ out, fastForwardTime stC10 dtoC10 "stu" 8 = Except.ok out ∧
      out.1.session.totalVirtualTimeElapsed =
        stC10.session.totalVirtualTimeElapsed + dtoC10.virtualMinutes ∧
      out.1.session.totalRealTimeElapsed =
        stC10.session.totalRealTimeElapsed +
          calculateRealTimeElapsed stC10.session.timeAccelerationRate
            (dtoC10.virtualMinutes : ℚ) ∧
      out.1.session.currentVirtualTime - stC10.session.currentVirtualTime <
        dtoC10.virtualMinutes * 60000 := by
  have h := interrupted_totals_use_full_request stC10 dtoC10 "stu" 8
    (ffSuccess stC10 dtoC10 8) rfl rfl (by decide)
  exact ⟨ffSuccess stC10 dtoC10 8, rfl, h⟩

/-- C4 (amended): the events fired by a successful fast-forward are exactly
the session's not-yet-triggered events whose `virtualTimeScheduled` lies in
the CLOSED interval from the starting virtual time to the (possibly clipped)
final time — the query uses `gte`, so an event scheduled exactly at the
starting virtual time IS fired — each returned with its trigger stamps set. -/
theorem fastForward_fires_closed_interval (st : SessionState)
    (dto : FastForwardDto) (userId : String) (now : Int)
    (out : SessionState × List TimeEvent × Bool)
    (h : fastForwardTime st dto userId now = Except.ok out) :
    out.2.1 = (st.events.filter
      (firePred st.session.currentVirtualTime (ffFinalTime st dto))).map
        (stampEvent now) := by
  have hout := fastForwardTime_ok h
  subst hout
  show (processTimeEvents now { st with session := ffUpdatedSession st dto now }
    st.session.currentVirtualTime (ffFinalTime st dto)).2 = _
  rw [processTimeEvents_snd]

/-- C4 counterexample: in `stC4` the untriggered event scheduled exactly at
the current virtual time (0) is fired by the fast-forward and returned with
its trigger stamp, contradicting the claimed open-left interval. -/
theorem event_at_current_time_fired :
    stC4.events.map (fun e => (e.virtualTimeScheduled, e.virtualTimeTriggered)) =
      [(0, none)] ∧
    stC4.session.currentVirtualTime = 0 ∧
    (fastForwardTime stC4 dtoC4 "stu" 3).toOption.map
      (fun out => out.2.1.map (fun e => (e.id, e.virtualTimeTriggered))) =
      some [(1, some 3)] := by
  exact ⟨rfl, rfl, rfl⟩

/-- Witness for C4 at the concrete session with an event at the interval's
left endpoint. -/
theorem fastForward_fires_closed_interval_witness :
    ∃ out, fastForwardTime stC4 dtoC4 "stu" 3 = Except.ok out ∧
      out.2.1 = (stC4.events.filter
        (firePred stC4.session.currentVirtualTime (ffFinalTime stC4 dtoC4))).map
          (stampEvent 3) :=
  ⟨ffSuccess stC4 dtoC4 3, rfl,
    fastForward_fires_closed_interval stC4 dtoC4 "stu" 3 (ffSuccess stC4 dtoC4 3) rfl⟩

/-- C5: a TimeEvent fires at most once: an already-triggered event is not
selected for firing (so its trigger stamps are not rewritten and its
consequences are not re-run), the stored row — with its original
`virtualTimeTriggered` value — survives `processTimeEvents` unchanged, and
every event returned as newly-triggered arises from a previously-untriggered
row, so the already-triggered event is skipped rather than reported as
newly-triggered. -/
theorem timeEvent_fires_at_most_once (now : Int) (st : SessionState)
    (fromTime toTime : Int) (hids : (st.events.map (fun e => e.id)).Nodup)
    (e : TimeEvent) (he : e ∈ st.events) (t : Int)
    (ht : e.virtualTimeTriggered = some t) :
    e ∉ st.events.filter (firePred fromTime toTime) ∧
    e ∈ (processTimeEvents now st fromTime toTime).1.events ∧
    ∀ x ∈ (processTimeEvents now st fromTime toTime).2,
      ∃ y, y ∈ st.events ∧ y.virtualTimeTriggered = none ∧ x = stampEvent now y := by
  refine ⟨?_, ?_, ?_⟩
  · intro hmem
    have hnone := (firePred_iff.mp (List.mem_filter.mp hmem).2).2.2
    rw [ht] at hnone
    exact Option.noConfusion hnone
  · exact processTimeEvents_preserves_triggered now st fromTime toTime hids e he
      (by simp [ht])
  · intro x hx
    rw [processTimeEvents_snd] at hx
    rcases List.mem_map.mp hx with ⟨y, hy, hxy⟩
    have hy' := List.mem_filter.mp hy
    exact ⟨y, hy'.1, (firePred_iff.mp hy'.2).2.2, hxy.symm⟩

/-- Witness for C5 at the concrete state holding an already-triggered event. -/
theorem timeEvent_fires_at_most_once_witness :
    firedEventC5 ∉ stC5.events.filter (firePred 0 600000) ∧
    firedEventC5 ∈ (processTimeEvents 7 stC5 0 600000).1.events ∧
    ∀ x ∈ (processTimeEvents 7 stC5 0 600000).2,
      ∃ y, y ∈ stC5.events ∧ y.virtualTimeTriggered = none ∧ x = stampEvent 7 y :=
  timeEvent_fires_at_most_once 7 stC5 0 600000 (by decide) firedEventC5
    (List.mem_cons_self firedEventC5 _) 2 rfl

/-- C1 counterexample: in `stC1` the unacknowledged interrupting event is
scheduled exactly at the target `old + 60 minutes`; the fast-forward clips to
it, so the new virtual time EQUALS `old + virtualMinutes * 60000` although an
interrupting event lies in the skipped interval and `stopOnEvents = true`,
refuting the claimed equivalence (equality iff no event in range or
`stopOnEvents` false). -/
theorem equality_despite_interrupting_event :
    (fastForwardTime stC1 dtoC1 "stu" 5).toOption.map
      (fun out => (out.1.session.currentVirtualTime, out.2.2)) =
      some (3600000, true) ∧
    stC1.session.currentVirtualTime + dtoC1.virtualMinutes * 60000 = 3600000 ∧
    dtoC1.stopOnEvents = some true ∧
    ∃ e ∈ stC1.events,
      stC1.session.currentVirtualTime < e.virtualTimeScheduled ∧
      e.virtualTimeScheduled ≤ 3600000 ∧ e.requiresAttention = true ∧
      e.acknowledgedAt = none := by
  refine ⟨rfl, rfl, rfl, ?_⟩
  decide

/-- C1 (amended): for a successful fast-forward with nonnegative requested
minutes, the virtual clock never decreases and reaches at most
`old + virtualMinutes * 60000`; equality holds iff `stopOnEvents` is not
`true` or every unacknowledged interrupting event in the skipped half-open
interval is scheduled exactly at the target (in particular when there is
none); the call is interrupted iff `stopOnEvents = true` and some
unacknowledged interrupting event lies in the interval, in which case the
clock is clipped to the earliest such event's scheduled time and
`timeFlowMode` becomes PAUSED, and otherwise the clock reaches the full
target and `timeFlowMode` becomes ACCELERATED. -/
theorem fastForward_clock_contract (st : SessionState) (dto : FastForwardDto)
    (userId : String) (now : Int) (out : SessionState × List TimeEvent × Bool)
    (h : fastForwardTime st dto userId now = Except.ok out)
    (hvm : 0 ≤ dto.virtualMinutes) :
    st.session.currentVirtualTime ≤ out.1.session.currentVirtualTime ∧
    out.1.session.currentVirtualTime ≤ ffTarget st dto ∧
    (out.1.session.currentVirtualTime = ffTarget st dto ↔
      (dto.stopOnEvents ≠ some true ∨
        ∀ e ∈ st.events,
          interruptingPred st.session.currentVirtualTime (ffTarget st dto) e = true →
            e.virtualTimeScheduled = ffTarget st dto)) ∧
    (out.2.2 = true ↔ (dto.stopOnEvents = some true ∧
      ∃ e ∈ st.events,
        interruptingPred st.session.currentVirtualTime (ffTarget st dto) e = true)) ∧
    (out.2.2 = true → out.1.session.timeFlowMode = TimeFlowMode.PAUSED ∧
      ∃ e ∈ st.events,
        interruptingPred st.session.currentVirtualTime (ffTarget st dto) e = true ∧
        out.1.session.currentVirtualTime = e.virtualTimeScheduled ∧
        ∀ y ∈ st.events,
          interruptingPred st.session.currentVirtualTime (ffTarget st dto) y = true →
            e.virtualTimeScheduled ≤ y.virtualTimeScheduled) ∧
    (out.2.2 = false →
      out.1.session.timeFlowMode = TimeFlowMode.ACCELERATED ∧
      out.1.session.currentVirtualTime = ffTarget st dto) := by
  have hout := fastForwardTime_ok h
  subst hout
  have hv := ffSuccess_view st dto now
  unfold sessionView at hv
  simp only [Prod.mk.injEq] at hv
  obtain ⟨hcv, hfm, htv, htr, hstat, hlast⟩ := hv
  have hflag : (ffSuccess st dto now).2.2 = ffInterrupted st dto := rfl
  by_cases hI : ffInterrupted st dto = true
  · obtain ⟨hne, hstop⟩ := (ffInterrupted_iff st dto).mp hI
    obtain ⟨e0, rest, hl⟩ : ∃ e0 rest, ffInterrupting st dto = e0 :: rest := by
      cases hcase : ffInterrupting st dto with
      | nil => exact absurd hcase hne
      | cons a l => exact ⟨a, l, rfl⟩
    obtain ⟨hft, -⟩ := ffFinalTime_of_interrupting st dto hl hstop
    have hl' : getInterruptingEvents st.events st.session.currentVirtualTime
        (ffTarget st dto) true = e0 :: rest := by
      rw [ffInterrupting_stop_true st dto hstop] at hl
      exact hl
    obtain ⟨he0mem, he0pred, he0min⟩ := getInterruptingEvents_head_min hl'
    have hp := interruptingPred_iff.mp he0pred
    rw [hft] at hcv
    refine ⟨?_, ?_, ?_, ?_, ?_, ?_⟩
    · rw [hcv]
      exact le_of_lt hp.1
    · rw [hcv]
      exact hp.2.1
    · rw [hcv]
      constructor
      · intro heq
        right
        intro y hy hpy
        have h1 := he0min y hy hpy
        have h2 := (interruptingPred_iff.mp hpy).2.1
        omega
      · intro hr
        rcases hr with hs | hall
        · exact absurd hstop hs
        · exact hall e0 he0mem he0pred
    · rw [hflag, hI]
      simp only [true_iff]
      exact ⟨hstop, e0, he0mem, he0pred⟩
    · intro _
      refine ⟨?_, e0, he0mem, he0pred, hcv, he0min⟩
      rw [hfm, if_pos hI]
    · intro hfalse
      rw [hflag, hI] at hfalse
      exact Bool.noConfusion hfalse
  · have hI' : ffInterrupted st dto = false := by
      cases hb : ffInterrupted st dto
      · rfl
      · exact absurd hb hI
    have hft := ffFinalTime_of_not_interrupted st dto hI'
    rw [hft] at hcv
    have htle : st.session.currentVirtualTime ≤ ffTarget st dto := by
      unfold ffTarget
      omega
    have hnoev : ∀ (hstop : dto.stopOnEvents = some true),
        ¬∃ e ∈ st.events,
          interruptingPred st.session.currentVirtualTime (ffTarget st dto) e = true := by
      intro hstop hex
      have hne := (ffInterrupting_ne_nil_iff st dto hstop).mpr hex
      have hTrue := (ffInterrupted_iff st dto).mpr ⟨hne, hstop⟩
      rw [hI'] at hTrue
      exact Bool.noConfusion hTrue
    refine ⟨?_, ?_, ?_, ?_, ?_, ?_⟩
    · rw [hcv]
      exact htle
    · rw [hcv]
    · rw [hcv]
      apply iff_of_true rfl
      by_cases hstop : dto.stopOnEvents = some true
      · right
        intro y hy hpy
        exact absurd ⟨y, hy, hpy⟩ (hnoev hstop)
      · left
        exact hstop
    · rw [hflag, hI']
      simp only [Bool.false_eq_true, false_iff]
      rintro ⟨hstop, hex⟩
      exact hnoev hstop hex
    · intro htrue
      rw [hflag, hI'] at htrue
      exact Bool.noConfusion htrue
    · intro _
      refine ⟨?_, hcv⟩
      rw [hfm, if_neg ?_]
      rw [hI']
      simp

/-- Witness for C1 at a concrete interrupted fast-forward (event strictly
inside the skipped interval). -/
theorem fastForward_clock_contract_witness :
    ∃ out, fastForwardTime stC1w dtoC1 "stu" 7 = Except.ok out ∧
      stC1w.session.currentVirtualTime ≤ out.1.session.currentVirtualTime ∧
      out.1.session.currentVirtualTime ≤ ffTarget stC1w dtoC1 ∧
      out.2.2 = true ∧ out.1.session.timeFlowMode = TimeFlowMode.PAUSED := by
  have h := fastForward_clock_contract stC1w dtoC1 "stu" 7 (ffSuccess stC1w dtoC1 7)
    rfl (by decide)
  have hintr : (ffSuccess stC1w dtoC1 7).2.2 = true := h.2.2.2.1.mpr (by decide)
  exact ⟨ffSuccess stC1w dtoC1 7, rfl, h.1, h.2.1, hintr,
    (h.2.2.2.2.1 hintr).1⟩

end VP
